import Mathlib

/-
Verification of the CAICR (Cursor AI Coordination Runtime) core against its
natural-language specification.  The runtime logic is embedded from
src/caicr_runtime/src/caicr.c; the persistence (LLDB) and distribution
(network) ports, whose in-repository implementations are placeholders that
always succeed, are modelled from the specification (sections 4.2, 4.3, 6, 7)
with injectable failure outcomes so that the runtime's error paths can be
exercised.
-/

/-- Status codes, mirroring the CAICRStatus enum of caicr.h (values 0..9). -/
inductive CAICRStatus where
  | success
  | errorInvalidParameter
  | errorOutOfMemory
  | errorLldbInitialization
  | errorLldbQuery
  | errorNetworkInitialization
  | errorInstanceDiscovery
  | errorOperationExecution
  | errorPersistence
  | errorUnknown
  deriving DecidableEq, Repr

/-- Operation kinds, mirroring the CAICROperationType enum of caicr.h. -/
inductive CAICROperationType where
  | insert
  | delete
  | replace
  | metaChange
  | resource
  deriving DecidableEq, Repr

/-- One change operation, mirroring struct CAICROperation of caicr.h.
A NULL content pointer is Option.none; the `next` batching pointer is
represented by using List CAICROperation for batches. -/
structure CAICROperation where
  type : CAICROperationType
  file_path : String
  line_number : Nat
  column_number : Nat
  content : Option String
  content_length : Nat
  timestamp_ns : Nat
  instance_id : String
  operation_id : Nat
  deriving DecidableEq, Repr

/-- One entry of the persistence log: a stored operation together with its
undone/redone flags (the flags the persistence port keeps per entry). -/
structure LogEntry where
  op : CAICROperation
  undone : Bool
  redone : Bool
  deriving DecidableEq, Repr

/-- Modelled from the spec: state of the Persistence Port (the in-repository
caicr_lldb implementation is a placeholder).  `log` is the durable ordered
log, `next_id` the next operationId the port will assign on append, and
`txn` the working copy (log, next id) of the open transaction, if any. -/
structure LLDBState where
  log : List LogEntry
  next_id : Nat
  txn : Option (List LogEntry × Nat)
  deriving DecidableEq, Repr

/-- Outcomes the external ports report on each kind of call.  The placeholder
implementations in the repository always return success; the spec allows every
call to fail, so the statuses are injected as an environment. -/
structure PortEnv where
  begin_status : CAICRStatus
  store_status : CAICRStatus
  commit_status : CAICRStatus
  mark_undone_status : CAICRStatus
  get_last_status : CAICRStatus
  distribute_status : CAICRStatus
  get_pending_status : CAICRStatus
  lldb_init_status : CAICRStatus
  network_init_status : CAICRStatus
  calloc_ok : Bool
  strdup_ok : Bool
  mtx_ok : Bool
  thrd_ok : Bool
  deriving DecidableEq, Repr

/-- Modelled from the spec: beginTransaction of the Persistence Port.  On
success it opens a working copy of the durable log; on failure the state is
untouched. -/
def caicr_lldb_begin_transaction (env : PortEnv) (db : LLDBState) :
    CAICRStatus × LLDBState :=
  if env.begin_status = CAICRStatus.success then
    (CAICRStatus.success, { db with txn := some (db.log, db.next_id) })
  else
    (env.begin_status, db)

/-- Modelled from the spec: store(operation) of the Persistence Port.  The
port assigns the next operationId on successful append.  Inside an open
transaction the append goes to the working copy; outside (as the background
sync loop does) it goes directly to the durable log.  On failure nothing
changes. -/
def caicr_lldb_store_operation (env : PortEnv) (db : LLDBState)
    (op : CAICROperation) : CAICRStatus × LLDBState :=
  if env.store_status = CAICRStatus.success then
    match db.txn with
    | some p =>
        (CAICRStatus.success,
         { db with
             txn := some (p.1 ++ [⟨{ op with operation_id := p.2 }, false, false⟩], p.2 + 1) })
    | none =>
        (CAICRStatus.success,
         { db with
             log := db.log ++ [⟨{ op with operation_id := db.next_id }, false, false⟩],
             next_id := db.next_id + 1 })
  else
    (env.store_status, db)

/-- Modelled from the spec: commitTransaction of the Persistence Port.  A
successful commit installs the working copy as the durable log; a failed
commit rolls the transaction back first (spec section 4.1: PersistenceError
if the transaction cannot commit, transaction is rolled back first), leaving
the durable log unchanged. -/
def caicr_lldb_commit_transaction (env : PortEnv) (db : LLDBState) :
    CAICRStatus × LLDBState :=
  if env.commit_status = CAICRStatus.success then
    match db.txn with
    | some p => (CAICRStatus.success, { log := p.1, next_id := p.2, txn := none })
    | none => (CAICRStatus.success, db)
  else
    (env.commit_status, { db with txn := none })

/-- Modelled from the spec: rollbackTransaction of the Persistence Port:
discards the working copy, leaving the durable log unchanged. -/
def caicr_lldb_rollback_transaction (db : LLDBState) : LLDBState :=
  { db with txn := none }

/-- Modelled from the spec: getLast of the Persistence Port: an immutable
snapshot of the last log entry's operation, or none on an empty log. -/
def caicr_lldb_get_last_operation (env : PortEnv) (db : LLDBState) :
    CAICRStatus × Option CAICROperation :=
  if env.get_last_status = CAICRStatus.success then
    (CAICRStatus.success, (db.log.getLast?).map LogEntry.op)
  else
    (env.get_last_status, none)

/-- Modelled from the spec: markUndone(operationId) of the Persistence Port,
flagging the entry with the given id in the transaction's working copy (or
directly in the log when no transaction is open). -/
def caicr_lldb_mark_operation_undone (env : PortEnv) (db : LLDBState)
    (id : Nat) : CAICRStatus × LLDBState :=
  if env.mark_undone_status = CAICRStatus.success then
    match db.txn with
    | some p =>
        (CAICRStatus.success,
         { db with
             txn := some (p.1.map (fun e =>
               if e.op.operation_id = id then { e with undone := true } else e), p.2) })
    | none =>
        (CAICRStatus.success,
         { db with
             log := db.log.map (fun e =>
               if e.op.operation_id = id then { e with undone := true } else e) })
  else
    (env.mark_undone_status, db)

/-- Modelled from the spec: distribute(operation) of the Distribution Port.
The in-repository network implementation is a placeholder; the broadcast
outcome is injected by the environment. -/
def caicr_network_distribute_operation (env : PortEnv)
    (op : CAICROperation) : CAICRStatus :=
  env.distribute_status

/-- Configuration, mirroring struct CAICRConfig of caicr.h. -/
structure CAICRConfig where
  instance_id : String
  project_root : String
  lldb_database_path : String
  coordination_port : Nat
  sync_interval_ms : Nat
  max_history_entries : Nat
  encryption_enabled : Bool
  deriving DecidableEq, Repr

/-- Runtime instance state, mirroring struct CAICRInstance_t of caicr.c:
configuration, the persistence state behind the LLDB context, the atomic
is_running flag, and whether a user callback is registered.  `freed` records
that caicr_shutdown has released the instance memory (the C pointer then
dangles; the source keeps no such flag and never checks one). -/
structure InstanceState where
  config : CAICRConfig
  db : LLDBState
  is_running : Bool
  callback_registered : Bool
  freed : Bool
  deriving DecidableEq, Repr

/-- Observable calls a runtime entry point makes, in program order:
the instance mutex, the persistence port, the distribution port, the user
callback, and the teardown steps of shutdown. -/
inductive Event where
  | lockAcquire
  | lockRelease
  | txBegin
  | txStore (op : CAICROperation)
  | txCommit
  | txRollback
  | getLast
  | markUndone (id : Nat)
  | distribute (op : CAICROperation)
  | callbackInvoke (ops : List CAICROperation)
  | syncState
  | getPending
  | freeBatch
  | freeOperation
  | stopSignal
  | threadJoin
  | networkShutdown
  | lldbShutdown
  | mtxDestroy
  | freeInstance
  deriving DecidableEq, Repr

/-- Result of one runtime entry point: the returned status, the instance
state afterwards (none models a NULL instance pointer), and the trace of
calls made. -/
structure CallResult where
  status : CAICRStatus
  inst : Option InstanceState
  events : List Event
  deriving DecidableEq, Repr

/-- caicr_initialize of caicr.c (lines 75-171): NULL checks, allocation,
mutex, LLDB then network port initialization, thread start; each failure
releases what was acquired and aborts.  Allocation, mutex and thread
outcomes are injected through the environment; `instance_out_null` models a
NULL output pointer. -/
def caicr_initialize (env : PortEnv) (config : Option CAICRConfig)
    (instance_out_null : Bool) : CAICRStatus × Option InstanceState :=
  match config with
  | none => (CAICRStatus.errorInvalidParameter, none)
  | some cfg =>
    if instance_out_null then (CAICRStatus.errorInvalidParameter, none)
    else if env.calloc_ok = false then (CAICRStatus.errorOutOfMemory, none)
    else if env.strdup_ok = false then (CAICRStatus.errorOutOfMemory, none)
    else if env.mtx_ok = false then (CAICRStatus.errorUnknown, none)
    else if env.lldb_init_status ≠ CAICRStatus.success then (env.lldb_init_status, none)
    else if env.network_init_status ≠ CAICRStatus.success then (env.network_init_status, none)
    else if env.thrd_ok = false then (CAICRStatus.errorUnknown, none)
    else
      (CAICRStatus.success,
       some { config := cfg,
              db := { log := [], next_id := 1, txn := none },
              is_running := true,
              callback_registered := false,
              freed := false })

/-- caicr_register_operation_callback of caicr.c (lines 173-186): NULL
instance is rejected; otherwise the callback slot is replaced under the
instance lock (a NULL callback deregisters, so only presence is tracked). -/
def caicr_register_operation_callback (inst : Option InstanceState)
    (callback_present : Bool) : CallResult :=
  match inst with
  | none =>
      { status := CAICRStatus.errorInvalidParameter, inst := none, events := [] }
  | some s =>
      { status := CAICRStatus.success,
        inst := some { s with callback_registered := callback_present },
        events := [Event.lockAcquire, Event.lockRelease] }

/-- caicr_submit_operation of caicr.c (lines 188-221): NULL checks; under the
lock begin a transaction, store the operation (explicit rollback on store
failure), commit, unlock; only then distribute outside the lock.  A commit
failure is returned without any further persistence call; a distribution
failure is returned without touching the log. -/
def caicr_submit_operation (env : PortEnv) (inst : Option InstanceState)
    (operation : Option CAICROperation) : CallResult :=
  match inst, operation with
  | none, _ =>
      { status := CAICRStatus.errorInvalidParameter, inst := none, events := [] }
  | some s, none =>
      { status := CAICRStatus.errorInvalidParameter, inst := some s, events := [] }
  | some s, some op =>
    let r1 := caicr_lldb_begin_transaction env s.db
    if r1.1 ≠ CAICRStatus.success then
      { status := r1.1, inst := some { s with db := r1.2 },
        events := [Event.lockAcquire, Event.txBegin, Event.lockRelease] }
    else
      let r2 := caicr_lldb_store_operation env r1.2 op
      if r2.1 ≠ CAICRStatus.success then
        { status := r2.1,
          inst := some { s with db := caicr_lldb_rollback_transaction r2.2 },
          events := [Event.lockAcquire, Event.txBegin, Event.txStore op,
                     Event.txRollback, Event.lockRelease] }
      else
        let r3 := caicr_lldb_commit_transaction env r2.2
        if r3.1 ≠ CAICRStatus.success then
          { status := r3.1, inst := some { s with db := r3.2 },
            events := [Event.lockAcquire, Event.txBegin, Event.txStore op,
                       Event.txCommit, Event.lockRelease] }
        else
          { status := caicr_network_distribute_operation env op,
            inst := some { s with db := r3.2 },
            events := [Event.lockAcquire, Event.txBegin, Event.txStore op,
                       Event.txCommit, Event.lockRelease, Event.distribute op] }

/-- The reversal operation caicr_undo builds (caicr.c lines 259-271): Insert
reverses to Delete, Delete to Insert, everything else to Replace; position
and path are copied; the deleted content travels only on the Delete case;
timestamp and operation id are left 0. -/
def caicr_undo_reverse_operation (instance_id : String)
    (last : CAICROperation) : CAICROperation :=
  { type :=
      if last.type = CAICROperationType.insert then CAICROperationType.delete
      else if last.type = CAICROperationType.delete then CAICROperationType.insert
      else CAICROperationType.replace,
    file_path := last.file_path,
    line_number := last.line_number,
    column_number := last.column_number,
    content := if last.type = CAICROperationType.delete then last.content else none,
    content_length := if last.type = CAICROperationType.delete then last.content_length else 0,
    timestamp_ns := 0,
    instance_id := instance_id,
    operation_id := 0 }

/-- caicr_undo of caicr.c (lines 223-295): NULL check; under the lock fetch
the last operation (CAICR_ERROR_OPERATION_EXECUTION when there is none),
begin a transaction, mark the operation undone (rollback on failure), build
the reversal, commit, unlock; then distribute the reversal outside the
lock. -/
def caicr_undo (env : PortEnv) (inst : Option InstanceState) : CallResult :=
  match inst with
  | none =>
      { status := CAICRStatus.errorInvalidParameter, inst := none, events := [] }
  | some s =>
    let r0 := caicr_lldb_get_last_operation env s.db
    if r0.1 ≠ CAICRStatus.success then
      { status := r0.1, inst := some s,
        events := [Event.lockAcquire, Event.getLast, Event.lockRelease] }
    else
      match r0.2 with
      | none =>
          { status := CAICRStatus.errorOperationExecution, inst := some s,
            events := [Event.lockAcquire, Event.getLast, Event.lockRelease] }
      | some last =>
        let r1 := caicr_lldb_begin_transaction env s.db
        if r1.1 ≠ CAICRStatus.success then
          { status := r1.1, inst := some { s with db := r1.2 },
            events := [Event.lockAcquire, Event.getLast, Event.txBegin,
                       Event.lockRelease] }
        else
          let r2 := caicr_lldb_mark_operation_undone env r1.2 last.operation_id
          if r2.1 ≠ CAICRStatus.success then
            { status := r2.1,
              inst := some { s with db := caicr_lldb_rollback_transaction r2.2 },
              events := [Event.lockAcquire, Event.getLast, Event.txBegin,
                         Event.markUndone last.operation_id, Event.txRollback,
                         Event.lockRelease] }
          else
            let rev := caicr_undo_reverse_operation s.config.instance_id last
            let r3 := caicr_lldb_commit_transaction env r2.2
            if r3.1 ≠ CAICRStatus.success then
              { status := r3.1, inst := some { s with db := r3.2 },
                events := [Event.lockAcquire, Event.getLast, Event.txBegin,
                           Event.markUndone last.operation_id, Event.txCommit,
                           Event.lockRelease] }
            else
              { status := caicr_network_distribute_operation env rev,
                inst := some { s with db := r3.2 },
                events := [Event.lockAcquire, Event.getLast, Event.txBegin,
                           Event.markUndone last.operation_id, Event.txCommit,
                           Event.lockRelease, Event.distribute rev] }

/-- caicr_redo of caicr.c (lines 297-301): the body is a placeholder that
returns CAICR_SUCCESS unconditionally, with no NULL check, no port call and
no state change. -/
def caicr_redo (inst : Option InstanceState) : CallResult :=
  { status := CAICRStatus.success, inst := inst, events := [] }

/-- caicr_free_operation of caicr.c (lines 303-312): NULL is a no-op;
otherwise the operation's owned strings and the node are freed. -/
def caicr_free_operation (operation : Option CAICROperation) : List Event :=
  match operation with
  | none => []
  | some _ => [Event.freeOperation]

/-- caicr_shutdown of caicr.c (lines 314-339): NULL check only; then it
unconditionally clears is_running, joins the sync thread, shuts the network
and LLDB ports down, destroys the mutex and frees the instance.  There is no
already-shut-down guard, so a second call on the same (now dangling)
instance repeats every step. -/
def caicr_shutdown (inst : Option InstanceState) : CallResult :=
  match inst with
  | none =>
      { status := CAICRStatus.errorInvalidParameter, inst := none, events := [] }
  | some s =>
      { status := CAICRStatus.success,
        inst := some { s with is_running := false, freed := true },
        events := [Event.stopSignal, Event.threadJoin, Event.networkShutdown,
                   Event.lldbShutdown, Event.mtxDestroy, Event.freeInstance] }

/-- The store loop of the sync thread (caicr.c lines 56-60): each operation
of the drained batch is stored in order, the per-call status being
discarded exactly as the source discards it. -/
def store_batch (env : PortEnv) (db : LLDBState) :
    List CAICROperation → LLDBState
  | [] => db
  | op :: rest => store_batch env ( caicr_lldb_store_operation env db op).2 rest

/-- One iteration of caicr_sync_thread_func of caicr.c (lines 43-69):
sync state with peers, drain pending operations (batch injected by the
environment), and only when the batch is non-empty AND a callback is
registered: invoke the callback on the whole batch, then store every batch
entry under the lock, then free the batch.  Otherwise nothing further
happens. -/
def caicr_sync_thread_iteration (env : PortEnv) (s : InstanceState)
    (pending : List CAICROperation) : InstanceState × List Event :=
  if env.get_pending_status = CAICRStatus.success then
    if pending ≠ [] ∧ s.callback_registered then
      ({ s with db := store_batch env s.db pending },
       [Event.syncState, Event.getPending, Event.callbackInvoke pending,
        Event.lockAcquire] ++ pending.map Event.txStore ++
       [Event.lockRelease, Event.freeBatch])
    else
      (s, [Event.syncState, Event.getPending])
  else
    (s, [Event.syncState, Event.getPending])

/-- Port environment in which every external call succeeds. -/
def all_success_env : PortEnv :=
  { begin_status := CAICRStatus.success, store_status := CAICRStatus.success,
    commit_status := CAICRStatus.success, mark_undone_status := CAICRStatus.success,
    get_last_status := CAICRStatus.success, distribute_status := CAICRStatus.success,
    get_pending_status := CAICRStatus.success, lldb_init_status := CAICRStatus.success,
    network_init_status := CAICRStatus.success,
    calloc_ok := true, strdup_ok := true, mtx_ok := true, thrd_ok := true }

/-- Environment in which the persistence store call fails. -/
def fail_store_env : PortEnv :=
  { all_success_env with store_status := CAICRStatus.errorPersistence }

/-- Environment in which only the distribution broadcast fails. -/
def fail_distribute_env : PortEnv :=
  { all_success_env with distribute_status := CAICRStatus.errorUnknown }

/-- The configuration the sample client of cursor_ai_client.c builds. -/
def test_config : CAICRConfig :=
  { instance_id := "instance-a", project_root := "/proj",
    lldb_database_path := "/proj/.caicr_history.db", coordination_port := 15001,
    sync_interval_ms := 1000, max_history_entries := 1000,
    encryption_enabled := true }

/-- A freshly initialized instance with an empty persistence log. -/
def fresh_instance : InstanceState :=
  { config := test_config, db := { log := [], next_id := 1, txn := none },
    is_running := true, callback_registered := false, freed := false }

/-- The sample operation the client of cursor_ai_client.c submits: an Insert
with timestamp_ns and operation_id left 0 for the runtime to fill in. -/
def sample_client_operation : CAICROperation :=
  { type := CAICROperationType.insert, file_path := "sample.txt",
    line_number := 1, column_number := 1, content := some "hello",
    content_length := 5, timestamp_ns := 0, instance_id := "instance-a",
    operation_id := 0 }

/-- The log entries a successful direct store of a batch produces, ids
assigned consecutively from the given next id. -/
def stored_entries : Nat → List CAICROperation → List LogEntry
  | _, [] => []
  | n, op :: rest =>
      ⟨{ op with operation_id := n }, false, false⟩ :: stored_entries (n + 1) rest

/-- When every store succeeds and no transaction is open, storing a batch
appends exactly the batch's entries with consecutive ids. -/
theorem store_batch_log (env : PortEnv) (batch : List CAICROperation) :
    ∀ db : LLDBState, env.store_status = CAICRStatus.success → db.txn = none →
      store_batch env db batch =
        { log := db.log ++ stored_entries db.next_id batch,
          next_id := db.next_id + batch.length, txn := none } := by
  induction batch with
  | nil =>
      intro db hs ht
      obtain ⟨l, n, t⟩ := db
      simp only at ht
      subst ht
      simp [store_batch, stored_entries]
  | cons op rest ih =>
      intro db hs ht
      obtain ⟨l, n, t⟩ := db
      simp only at ht
      subst ht
      have hstep : ( caicr_lldb_store_operation env ⟨l, n, none⟩ op).2 =
          ⟨l ++ [⟨{ op with operation_id := n }, false, false⟩], n + 1, none⟩ := by
        simp [caicr_lldb_store_operation, hs]
      rw [store_batch, hstep, ih _ hs rfl]
      simp [stored_entries, List.append_assoc]
      omega

/-- C3: the spec claims every persisted Operation has a non-zero operationId
and non-zero timestampNanos, the runtime assigning timestampNanos before the
append.  On the sample client operation (timestamp_ns left 0 for the runtime
to fill in, cursor_ai_client.c) a fully successful submit persists the entry
with the port-assigned operationId 1 but with timestamp_ns still 0: the
runtime never assigns a timestamp before the append. -/
theorem C3_persisted_timestamp_stays_zero :
    ( caicr_submit_operation all_success_env (some fresh_instance)
        (some sample_client_operation)).status = CAICRStatus.success ∧
    (( caicr_submit_operation all_success_env (some fresh_instance)
        (some sample_client_operation)).inst).map
        (fun s => s.db.log.map (fun e => (e.op.operation_id, e.op.timestamp_ns))) =
      some [(1, 0)] :=
  ⟨rfl, rfl⟩

/-- C6: the spec claims redo marks the most recently undone entry redone,
recomputes the forward operation, commits and distributes it, failing with
NoOperationToRedo when no undone entry exists.  The source body of
caicr_redo is a placeholder: on an instance whose log is empty (so no
undone entry exists) it still returns CAICR_SUCCESS, makes no port call and
changes nothing. -/
theorem C6_redo_placeholder_ignores_undo_stack :
    fresh_instance.db.log = [] ∧
    caicr_redo (some fresh_instance) =
      { status := CAICRStatus.success, inst := some fresh_instance, events := [] } :=
  ⟨rfl, rfl⟩

/-- C7: the spec claims a second shutdown returns AlreadyShutDown and never
double-frees.  The source has no already-shut-down guard (and the status
enum has no such code): a second caicr_shutdown on the already-freed
instance returns CAICR_SUCCESS and repeats the whole teardown, including
the port shutdowns and the frees. -/
theorem C7_second_shutdown_repeats_teardown :
    ( caicr_shutdown (some fresh_instance)).status = CAICRStatus.success ∧
    (( caicr_shutdown (some fresh_instance)).inst).map InstanceState.freed = some true ∧
    ( caicr_shutdown (( caicr_shutdown (some fresh_instance)).inst)).status =
      CAICRStatus.success ∧
    ( caicr_shutdown (( caicr_shutdown (some fresh_instance)).inst)).events =
      [Event.stopSignal, Event.threadJoin, Event.networkShutdown,
       Event.lldbShutdown, Event.mtxDestroy, Event.freeInstance] :=
  ⟨rfl, rfl, rfl, rfl⟩

/-- An instance on which shutdown has been signaled: the is_running flag is
cleared but the memory has not yet been released. -/
def signaled_instance : InstanceState :=
  { fresh_instance with is_running := false }

/-- C8: the spec claims no submit is accepted once shutdown has been
signaled.  caicr_submit_operation never reads the is_running flag: on an
instance whose flag is already false it still appends, commits and
distributes the operation, returning CAICR_SUCCESS with the log grown by
one entry. -/
theorem C8_submit_not_gated_by_shutdown_signal :
    signaled_instance.is_running = false ∧
    ( caicr_submit_operation all_success_env (some signaled_instance)
        (some sample_client_operation)).status = CAICRStatus.success ∧
    (( caicr_submit_operation all_success_env (some signaled_instance)
        (some sample_client_operation)).inst).map
        (fun s => s.db.log.length) = some 1 :=
  ⟨rfl, rfl, rfl⟩

/-- C9 counterexample: the claim requires every public entry point, redo
included, to return CAICR_ERROR_INVALID_PARAMETER on a NULL instance.  The
placeholder caicr_redo returns CAICR_SUCCESS even for a NULL instance. -/
theorem C9_redo_null_counterexample :
    ( caicr_redo none).status = CAICRStatus.success ∧
    ( caicr_redo none).status ≠ CAICRStatus.errorInvalidParameter :=
  ⟨rfl, by decide⟩

/-- C9 amended: every public entry point except redo rejects a NULL
instance (and a NULL config, operation, or output pointer where one is
required) with CAICR_ERROR_INVALID_PARAMETER while changing no state, and
caicr_free_operation on NULL returns without effect; the placeholder
caicr_redo instead returns CAICR_SUCCESS on a NULL instance. -/
theorem C9_null_checks_except_redo (env : PortEnv) (cfg : CAICRConfig)
    (s : InstanceState) (op : CAICROperation) (b : Bool) :
    caicr_initialize env none b = (CAICRStatus.errorInvalidParameter, none) ∧
    caicr_initialize env (some cfg) true = (CAICRStatus.errorInvalidParameter, none) ∧
    caicr_register_operation_callback none b =
      { status := CAICRStatus.errorInvalidParameter, inst := none, events := [] } ∧
    caicr_submit_operation env none (some op) =
      { status := CAICRStatus.errorInvalidParameter, inst := none, events := [] } ∧
    caicr_submit_operation env none none =
      { status := CAICRStatus.errorInvalidParameter, inst := none, events := [] } ∧
    caicr_submit_operation env (some s) none =
      { status := CAICRStatus.errorInvalidParameter, inst := some s, events := [] } ∧
    caicr_undo env none =
      { status := CAICRStatus.errorInvalidParameter, inst := none, events := [] } ∧
    caicr_shutdown none =
      { status := CAICRStatus.errorInvalidParameter, inst := none, events := [] } ∧
    caicr_free_operation none = [] ∧
    caicr_redo none = { status := CAICRStatus.success, inst := none, events := [] } :=
  ⟨rfl, rfl, rfl, rfl, rfl, rfl, rfl, rfl, rfl, rfl⟩

/-- C1: when the persistence layer reports a failure during submit (begin,
store or commit fails), submit returns that error, the durable log is
unchanged and no transaction is left open; on a store failure the runtime
has explicitly rolled the transaction back before returning. -/
theorem C1_submit_persistence_failure_preserves_log (env : PortEnv)
    (s : InstanceState) (op : CAICROperation) (ht : s.db.txn = none)
    (h : ¬(env.begin_status = CAICRStatus.success ∧
           env.store_status = CAICRStatus.success ∧
           env.commit_status = CAICRStatus.success)) :
    ( caicr_submit_operation env (some s) (some op)).status ≠ CAICRStatus.success ∧
    ∃ s2 : InstanceState,
      ( caicr_submit_operation env (some s) (some op)).inst = some s2 ∧
      s2.db.log = s.db.log ∧ s2.db.txn = none ∧
      (env.begin_status = CAICRStatus.success →
        env.store_status ≠ CAICRStatus.success →
        Event.txRollback ∈ ( caicr_submit_operation env (some s) (some op)).events) := by
  by_cases hb : env.begin_status = CAICRStatus.success
  · by_cases hs : env.store_status = CAICRStatus.success
    · by_cases hc : env.commit_status = CAICRStatus.success
      · exact absurd ⟨hb, hs, hc⟩ h
      · simp [caicr_submit_operation, caicr_lldb_begin_transaction,
              caicr_lldb_store_operation, caicr_lldb_commit_transaction,
              caicr_lldb_rollback_transaction, hb, hs, hc, ht]
    · simp [caicr_submit_operation, caicr_lldb_begin_transaction,
            caicr_lldb_store_operation, caicr_lldb_rollback_transaction,
            hb, hs, ht]
  · simp [caicr_submit_operation, caicr_lldb_begin_transaction, hb, ht]

/-- C1 witness: a store failure on a fresh instance. -/
theorem C1_witness :
    fresh_instance.db.txn = none ∧
    ¬(fail_store_env.begin_status = CAICRStatus.success ∧
      fail_store_env.store_status = CAICRStatus.success ∧
      fail_store_env.commit_status = CAICRStatus.success) ∧
    (( caicr_submit_operation fail_store_env (some fresh_instance)
        (some sample_client_operation)).status ≠ CAICRStatus.success ∧
     ∃ s2 : InstanceState,
       ( caicr_submit_operation fail_store_env (some fresh_instance)
           (some sample_client_operation)).inst = some s2 ∧
       s2.db.log = fresh_instance.db.log ∧ s2.db.txn = none ∧
       (fail_store_env.begin_status = CAICRStatus.success →
         fail_store_env.store_status ≠ CAICRStatus.success →
         Event.txRollback ∈ ( caicr_submit_operation fail_store_env
           (some fresh_instance) (some sample_client_operation)).events)) :=
  ⟨rfl, by decide,
   C1_submit_persistence_failure_preserves_log fail_store_env fresh_instance
     sample_client_operation rfl (by decide)⟩

/-- C2: when the persistence transaction commits, submit keeps the committed
entry in the log whatever the distribution outcome is, reports exactly the
distribution status, and the distribute call happens only after the lock
release, as the returned event trace shows. -/
theorem C2_distribution_failure_keeps_commit (env : PortEnv)
    (s : InstanceState) (op : CAICROperation)
    (hb : env.begin_status = CAICRStatus.success)
    (hs : env.store_status = CAICRStatus.success)
    (hc : env.commit_status = CAICRStatus.success) :
    caicr_submit_operation env (some s) (some op) =
      { status := env.distribute_status,
        inst := some { s with db :=
          { log := s.db.log ++ [⟨{ op with operation_id := s.db.next_id }, false, false⟩],
            next_id := s.db.next_id + 1,
            txn := none } },
        events := [Event.lockAcquire, Event.txBegin, Event.txStore op,
                   Event.txCommit, Event.lockRelease, Event.distribute op] } := by
  simp [caicr_submit_operation, caicr_lldb_begin_transaction,
        caicr_lldb_store_operation, caicr_lldb_commit_transaction,
        caicr_network_distribute_operation, hb, hs, hc]

/-- C2 witness: a distribution failure after a successful commit. -/
theorem C2_witness :
    fail_distribute_env.begin_status = CAICRStatus.success ∧
    fail_distribute_env.store_status = CAICRStatus.success ∧
    fail_distribute_env.commit_status = CAICRStatus.success ∧
    caicr_submit_operation fail_distribute_env (some fresh_instance)
        (some sample_client_operation) =
      { status := fail_distribute_env.distribute_status,
        inst := some { fresh_instance with db :=
          { log := fresh_instance.db.log ++
              [⟨{ sample_client_operation with
                    operation_id := fresh_instance.db.next_id }, false, false⟩],
            next_id := fresh_instance.db.next_id + 1,
            txn := none } },
        events := [Event.lockAcquire, Event.txBegin,
                   Event.txStore sample_client_operation, Event.txCommit,
                   Event.lockRelease, Event.distribute sample_client_operation] } :=
  ⟨rfl, rfl, rfl,
   C2_distribution_failure_keeps_commit fail_distribute_env fresh_instance
     sample_client_operation rfl rfl rfl⟩

/-- C4: on a successful undo, the reversal built and distributed follows the
source rule of caicr_undo: a last Insert reverses to a Delete at the same
filePath, line and column with no content; a last Delete reverses to an
Insert carrying the deleted content and its contentLength; a last Replace
reverses to a Replace. -/
theorem C4_undo_reversal_rule (env : PortEnv) (s : InstanceState) (e : LogEntry)
    (hg : env.get_last_status = CAICRStatus.success)
    (hb : env.begin_status = CAICRStatus.success)
    (hm : env.mark_undone_status = CAICRStatus.success)
    (hc : env.commit_status = CAICRStatus.success)
    (hd : env.distribute_status = CAICRStatus.success)
    (hlast : s.db.log.getLast? = some e) :
    ( caicr_undo env (some s)).status = CAICRStatus.success ∧
    ( caicr_undo env (some s)).events =
      [Event.lockAcquire, Event.getLast, Event.txBegin,
       Event.markUndone e.op.operation_id, Event.txCommit, Event.lockRelease,
       Event.distribute ( caicr_undo_reverse_operation s.config.instance_id e.op)] ∧
    (e.op.type = CAICROperationType.insert →
      caicr_undo_reverse_operation s.config.instance_id e.op =
        { type := CAICROperationType.delete, file_path := e.op.file_path,
          line_number := e.op.line_number, column_number := e.op.column_number,
          content := none, content_length := 0, timestamp_ns := 0,
          instance_id := s.config.instance_id, operation_id := 0 }) ∧
    (e.op.type = CAICROperationType.delete →
      caicr_undo_reverse_operation s.config.instance_id e.op =
        { type := CAICROperationType.insert, file_path := e.op.file_path,
          line_number := e.op.line_number, column_number := e.op.column_number,
          content := e.op.content, content_length := e.op.content_length,
          timestamp_ns := 0, instance_id := s.config.instance_id,
          operation_id := 0 }) ∧
    (e.op.type = CAICROperationType.replace →
      caicr_undo_reverse_operation s.config.instance_id e.op =
        { type := CAICROperationType.replace, file_path := e.op.file_path,
          line_number := e.op.line_number, column_number := e.op.column_number,
          content := none, content_length := 0, timestamp_ns := 0,
          instance_id := s.config.instance_id, operation_id := 0 }) := by
  refine ⟨?_, ?_, ?_, ?_, ?_⟩
  · simp [caicr_undo, caicr_lldb_get_last_operation,
          caicr_lldb_begin_transaction, caicr_lldb_mark_operation_undone,
          caicr_lldb_commit_transaction, caicr_network_distribute_operation,
          hg, hb, hm, hc, hd, hlast]
  · simp [caicr_undo, caicr_lldb_get_last_operation,
          caicr_lldb_begin_transaction, caicr_lldb_mark_operation_undone,
          caicr_lldb_commit_transaction, caicr_network_distribute_operation,
          hg, hb, hm, hc, hd, hlast]
  · intro hins
    simp [caicr_undo_reverse_operation, hins]
  · intro hdel
    simp [caicr_undo_reverse_operation, hdel]
  · intro hrep
    simp [caicr_undo_reverse_operation, hrep]

/-- The log entry the C4 witness instance holds: a committed Insert. -/
def logged_insert : LogEntry :=
  ⟨{ sample_client_operation with operation_id := 1 }, false, false⟩

/-- An instance whose log already holds one committed Insert. -/
def instance_with_insert : InstanceState :=
  { fresh_instance with db := { log := [logged_insert], next_id := 2, txn := none } }

/-- C4 witness: undo of a logged Insert on a concrete instance. -/
theorem C4_witness :
    all_success_env.get_last_status = CAICRStatus.success ∧
    all_success_env.begin_status = CAICRStatus.success ∧
    all_success_env.mark_undone_status = CAICRStatus.success ∧
    all_success_env.commit_status = CAICRStatus.success ∧
    all_success_env.distribute_status = CAICRStatus.success ∧
    instance_with_insert.db.log.getLast? = some logged_insert ∧
    (( caicr_undo all_success_env (some instance_with_insert)).status =
        CAICRStatus.success ∧
     ( caicr_undo all_success_env (some instance_with_insert)).events =
       [Event.lockAcquire, Event.getLast, Event.txBegin,
        Event.markUndone logged_insert.op.operation_id, Event.txCommit,
        Event.lockRelease,
        Event.distribute ( caicr_undo_reverse_operation
          instance_with_insert.config.instance_id logged_insert.op)] ∧
     (logged_insert.op.type = CAICROperationType.insert →
       caicr_undo_reverse_operation instance_with_insert.config.instance_id
           logged_insert.op =
         { type := CAICROperationType.delete,
           file_path := logged_insert.op.file_path,
           line_number := logged_insert.op.line_number,
           column_number := logged_insert.op.column_number,
           content := none, content_length := 0, timestamp_ns := 0,
           instance_id := instance_with_insert.config.instance_id,
           operation_id := 0 }) ∧
     (logged_insert.op.type = CAICROperationType.delete →
       caicr_undo_reverse_operation instance_with_insert.config.instance_id
           logged_insert.op =
         { type := CAICROperationType.insert,
           file_path := logged_insert.op.file_path,
           line_number := logged_insert.op.line_number,
           column_number := logged_insert.op.column_number,
           content := logged_insert.op.content,
           content_length := logged_insert.op.content_length,
           timestamp_ns := 0,
           instance_id := instance_with_insert.config.instance_id,
           operation_id := 0 }) ∧
     (logged_insert.op.type = CAICROperationType.replace →
       caicr_undo_reverse_operation instance_with_insert.config.instance_id
           logged_insert.op =
         { type := CAICROperationType.replace,
           file_path := logged_insert.op.file_path,
           line_number := logged_insert.op.line_number,
           column_number := logged_insert.op.column_number,
           content := none, content_length := 0, timestamp_ns := 0,
           instance_id := instance_with_insert.config.instance_id,
           operation_id := 0 })) :=
  ⟨rfl, rfl, rfl, rfl, rfl, rfl,
   C4_undo_reversal_rule all_success_env instance_with_insert logged_insert
     rfl rfl rfl rfl rfl rfl⟩

/-- C5: undo on an instance whose persistence log is empty returns
CAICR_ERROR_OPERATION_EXECUTION (the NoOperationToUndo outcome), leaves the
instance state unchanged, and its trace shows that no transaction is begun,
nothing is marked undone and nothing is distributed. -/
theorem C5_undo_empty_log (env : PortEnv) (s : InstanceState)
    (hg : env.get_last_status = CAICRStatus.success)
    (hlog : s.db.log = []) :
    caicr_undo env (some s) =
      { status := CAICRStatus.errorOperationExecution, inst := some s,
        events := [Event.lockAcquire, Event.getLast, Event.lockRelease] } := by
  simp [caicr_undo, caicr_lldb_get_last_operation, hg, hlog]

/-- C5 witness: undo on the fresh, empty instance. -/
theorem C5_witness :
    all_success_env.get_last_status = CAICRStatus.success ∧
    fresh_instance.db.log = [] ∧
    caicr_undo all_success_env (some fresh_instance) =
      { status := CAICRStatus.errorOperationExecution, inst := some fresh_instance,
        events := [Event.lockAcquire, Event.getLast, Event.lockRelease] } :=
  ⟨rfl, rfl, C5_undo_empty_log all_success_env fresh_instance rfl rfl⟩

/-- C10: in one iteration of the background sync loop, a non-empty drained
batch is stored only when a callback is registered; with no callback the
state (and so the persistence log) is untouched and no store call occurs;
with a callback the trace invokes the callback on the whole batch before
every store, and the log is extended by exactly the batch's entries. -/
theorem C10_sync_store_requires_callback (env : PortEnv) (s : InstanceState)
    (batch : List CAICROperation)
    (hp : env.get_pending_status = CAICRStatus.success)
    (hs : env.store_status = CAICRStatus.success)
    (ht : s.db.txn = none)
    (hb : batch ≠ []) :
    (s.callback_registered = false →
      caicr_sync_thread_iteration env s batch =
        (s, [Event.syncState, Event.getPending])) ∧
    (s.callback_registered = true →
      ( caicr_sync_thread_iteration env s batch).2 =
        [Event.syncState, Event.getPending, Event.callbackInvoke batch,
         Event.lockAcquire] ++ batch.map Event.txStore ++
        [Event.lockRelease, Event.freeBatch] ∧
      ( caicr_sync_thread_iteration env s batch).1.db.log =
        s.db.log ++ stored_entries s.db.next_id batch) := by
  constructor
  · intro hcb
    simp [caicr_sync_thread_iteration, hp, hb, hcb]
  · intro hcb
    constructor
    · simp [caicr_sync_thread_iteration, hp, hb, hcb]
    · simp only [caicr_sync_thread_iteration, hp, if_pos, hb, hcb, and_true,
                 ne_eq, not_false_iff, if_true]
      simp [store_batch_log env batch s.db hs ht, hb]

/-- A fresh instance with a registered callback, for the C10 witness. -/
def callback_instance : InstanceState :=
  { fresh_instance with callback_registered := true }

/-- C10 witness: a one-element batch drained on an instance that has a
callback registered. -/
theorem C10_witness :
    all_success_env.get_pending_status = CAICRStatus.success ∧
    all_success_env.store_status = CAICRStatus.success ∧
    callback_instance.db.txn = none ∧
    [sample_client_operation] ≠ [] ∧
    ((callback_instance.callback_registered = false →
       caicr_sync_thread_iteration all_success_env callback_instance
           [sample_client_operation] =
         (callback_instance, [Event.syncState, Event.getPending])) ∧
     (callback_instance.callback_registered = true →
       ( caicr_sync_thread_iteration all_success_env callback_instance
           [sample_client_operation]).2 =
         [Event.syncState, Event.getPending,
          Event.callbackInvoke [sample_client_operation],
          Event.lockAcquire] ++ [sample_client_operation].map Event.txStore ++
         [Event.lockRelease, Event.freeBatch] ∧
       ( caicr_sync_thread_iteration all_success_env callback_instance
           [sample_client_operation]).1.db.log =
         callback_instance.db.log ++
           stored_entries callback_instance.db.next_id [sample_client_operation])) :=
  ⟨rfl, rfl, rfl, by decide,
   C10_sync_store_requires_callback all_success_env callback_instance
     [sample_client_operation] rfl rfl rfl (by decide)⟩
